import Mathlib

/-
Verification of the Gurobi MIP backend adapter
(sage_numerical_backends_gurobi/gurobi_backend.pyx).

The development shallowly embeds the adapter: the native Gurobi model that
the adapter manipulates through the C API is represented as an explicit
state record, Python floats are modelled as rationals, the native infinity
sentinel GRB_INFINITY = 1e100 is the rational 10^100, and every fallible
operation returns an explicit Python-level outcome (exception or value).
Each cpdef method of the backend is translated to a Lean function on the
state; methods that mutate the model return the post-call state paired
with the outcome, so that a raised exception leaves the pre-call state
observable.
-/

/-- Decidable equality of outcomes, so that concrete runs of the embedded
operations can be settled by evaluation. -/
instance exceptDecEq {ε α : Type} [DecidableEq ε] [DecidableEq α] :
    DecidableEq (Except ε α) := fun x y =>
  match x, y with
  | .ok a, .ok b =>
      if h : a = b then isTrue (by rw [h]) else isFalse (fun hh => h (Except.ok.inj hh))
  | .error a, .error b =>
      if h : a = b then isTrue (by rw [h]) else isFalse (fun hh => h (Except.error.inj hh))
  | .ok _, .error _ => isFalse (fun hh => Except.noConfusion hh)
  | .error _, .ok _ => isFalse (fun hh => Except.noConfusion hh)

namespace Gurobi

/-- Python-level failures that the adapter code can raise: the solver
exception used for native errors and solve outcomes, the KeyError that a
failed dict lookup raises, the ValueError used for configuration errors,
and the RuntimeError of the unreachable dispatch arm. -/
inductive PyError where
  | mipSolverException (msg : String)
  | keyError (key : Int)
  | valueError (msg : String)
  | runtimeError (msg : String)
deriving DecidableEq

/-- Infinity sentinel of the native API (GRB_INFINITY = 1e100). The
power is taken over the naturals so that concrete comparisons evaluate. -/
def GRB_INFINITY : ℚ := ((10 ^ 100 : ℕ) : ℚ)

/-- Variable type characters of the native API. -/
def GRB_BINARY : Char := 'B'

def GRB_CONTINUOUS : Char := 'C'

def GRB_INTEGER : Char := 'I'

/-- Constraint sense characters of the native API. -/
def GRB_LESS_EQUAL : Char := '<'

def GRB_GREATER_EQUAL : Char := '>'

def GRB_EQUAL : Char := '='

/-- Terminal status codes of the native optimizer, from the Gurobi C API
header (an external dependency of the repository). -/
def GRB_OPTIMAL : Int := 2

def GRB_INFEASIBLE : Int := 3

def GRB_INF_OR_UNBD : Int := 4

def GRB_UNBOUNDED : Int := 5

def GRB_ITERATION_LIMIT : Int := 7

def GRB_NODE_LIMIT : Int := 8

def GRB_TIME_LIMIT : Int := 9

def GRB_SOLUTION_LIMIT : Int := 10

/-- The static error-code table (cdef dict errors, lines 1302-1323 of the
source): native error code to symbolic name. -/
def errors : Int → Option String := fun e =>
  if e = 10001 then some "GRB_ERROR_OUT_OF_MEMORY"
  else if e = 10002 then some "GRB_ERROR_NULL_ARGUMENT"
  else if e = 10003 then some "GRB_ERROR_INVALID_ARGUMENT"
  else if e = 10004 then some "GRB_ERROR_UNKNOWN_ATTRIBUTE"
  else if e = 10005 then some "GRB_ERROR_DATA_NOT_AVAILABLE"
  else if e = 10006 then some "GRB_ERROR_INDEX_OUT_OF_RANGE"
  else if e = 10007 then some "GRB_ERROR_UNKNOWN_PARAMETER"
  else if e = 10008 then some "GRB_ERROR_VALUE_OUT_OF_RANGE"
  else if e = 10009 then some "GRB_ERROR_NO_LICENSE"
  else if e = 10010 then some "GRB_ERROR_SIZE_LIMIT_EXCEEDED"
  else if e = 10011 then some "GRB_ERROR_CALLBACK"
  else if e = 10012 then some "GRB_ERROR_FILE_READ"
  else if e = 10013 then some "GRB_ERROR_FILE_WRITE"
  else if e = 10014 then some "GRB_ERROR_NUMERIC"
  else if e = 10015 then some "GRB_ERROR_IIS_NOT_INFEASIBLE"
  else if e = 10016 then some "GRB_ERROR_NOT_FOR_MIP"
  else if e = 10017 then some "GRB_ERROR_OPTIMIZATION_IN_PROGRESS"
  else if e = 10018 then some "GRB_ERROR_DUPLICATES"
  else if e = 10019 then some "GRB_ERROR_NODEFILE"
  else if e = 10020 then some "GRB_ERROR_Q_NOT_PSD"
  else none

/-- The error-translation routine (cdef check, lines 1424-1426):

    cdef check(GRBenv * env, int error):
        if error:
            raise MIPSolverException("Gurobi: " + str(GRBgeterrormsg(env))
                                     + " (" + errors[error] + ")")

The first argument models the text that GRBgeterrormsg returns for the
environment. Python evaluates the subscript errors[error] while building
the message, and a dict subscript with a missing key raises KeyError, so
for a nonzero code outside the table the KeyError propagates and no
MIPSolverException is constructed. -/
def check (errmsg : String) (error : Int) : Except PyError Unit :=
  if error = 0 then .ok ()
  else
    match errors error with
    | some sym => .error (.mipSolverException ("Gurobi: " ++ errmsg ++ " (" ++ sym ++ ")"))
    | none => .error (.keyError error)

/-- The static status table (cdef dict mip_status, lines 1325-1333):
terminal status code to human-readable reason. -/
def mip_status : Int → Option String := fun s =>
  if s = GRB_INFEASIBLE then some "The problem is infeasible"
  else if s = GRB_INF_OR_UNBD then some "The problem is infeasible or unbounded"
  else if s = GRB_UNBOUNDED then some "The problem is unbounded"
  else if s = GRB_ITERATION_LIMIT then some "The iteration limit has been reached"
  else if s = GRB_NODE_LIMIT then some "The node limit has been reached"
  else if s = GRB_TIME_LIMIT then some "The time limit has been reached"
  else if s = GRB_SOLUTION_LIMIT then some "The solution limit has been reached"
  else none

/-- One column of the native model: the attributes LB, UB, VType, Obj and
VarName that the adapter reads and writes through the attribute API. -/
structure NativeVar where
  lb : ℚ
  ub : ℚ
  vtype : Char
  obj : ℚ
  varName : String
deriving DecidableEq

/-- One row of the native model: the sparse coefficient list and the
attributes Sense, RHS and ConstrName. -/
structure NativeRow where
  rowCoeffs : List (Nat × ℚ)
  sense : Char
  rhs : ℚ
  rowName : String
deriving DecidableEq

/-- The native model state behind the opaque GRBmodel handle, restricted
to the attributes this adapter touches. The Status and ObjVal attributes
are written by the native optimizer; ObjVal is absent until a solution is
available (reading it then is a native error). -/
structure NativeModel where
  vars : List NativeVar
  rows : List NativeRow
  modelSense : Int
  modelName : String
  status : Int
  objVal : Option ℚ
deriving DecidableEq

/-- The adapter object: the native model plus the one piece of state the
adapter keeps on the Python side, the objective constant term. -/
structure Backend where
  model : NativeModel
  obj_constant_term : ℚ
deriving DecidableEq

/-- The exception that check raises when a native attribute-element call
is given an out-of-range index (native error code 10006). -/
def nativeIndexError : PyError :=
  .mipSolverException
    "Gurobi: Index out of range for attribute element. (GRB_ERROR_INDEX_OUT_OF_RANGE)"

/-- Models GRBgetdblattrelement and friends on a column: fetch the column
record, failing like the native layer on an out-of-range index. -/
def NativeModel.getVar (m : NativeModel) (i : Nat) : Except PyError NativeVar :=
  match m.vars.get? i with
  | some v => .ok v
  | none => .error nativeIndexError

/-- Models GRBsetdblattrelement and friends on a column: update the column
record in place, failing like the native layer on an out-of-range index. -/
def NativeModel.updVar (m : NativeModel) (i : Nat) (f : NativeVar → NativeVar) :
    Except PyError NativeModel :=
  match m.vars.get? i with
  | some v => .ok { m with vars := m.vars.set i (f v) }
  | none => .error nativeIndexError

/-- Models attribute reads on a row, failing on an out-of-range index. -/
def NativeModel.getRow (m : NativeModel) (i : Nat) : Except PyError NativeRow :=
  match m.rows.get? i with
  | some r => .ok r
  | none => .error nativeIndexError

/-- ncols (lines 859-876): the NumVars attribute. -/
def ncols (m : NativeModel) : Nat := m.vars.length

/-- nrows (lines 878-895): the NumConstrs attribute. -/
def nrows (m : NativeModel) : Nat := m.rows.length

/-- Models the native GRBaddconstr entry point: append one row with the
given sense character and right-hand side; an out-of-range variable index
in the coefficient list is a native error that leaves the model
unchanged. -/
def GRBaddconstr (m : NativeModel) (cs : List (Nat × ℚ)) (sense : Char)
    (rhs : ℚ) (nm : String) : NativeModel × Except PyError Unit :=
  if cs.all (fun p => p.1 < m.vars.length) then
    ({ m with rows := m.rows ++ [⟨cs, sense, rhs, nm⟩] }, .ok ())
  else (m, .error nativeIndexError)

/-- Models the native GRBaddrangeconstr entry point, per the Gurobi C API
reference: a range constraint lower <= a.x <= upper is stored by adding a
fresh slack column s with bounds [0, upper - lower] and the equality row
a.x - s = lower, so the Sense attribute of the stored row is the equality
character and its RHS attribute is the lower bound. -/
def GRBaddrangeconstr (m : NativeModel) (cs : List (Nat × ℚ)) (lower upper : ℚ)
    (nm : String) : NativeModel × Except PyError Unit :=
  if cs.all (fun p => p.1 < m.vars.length) then
    ({ m with
        vars := m.vars ++ [⟨0, upper - lower, GRB_CONTINUOUS, 0, "RgR" ++ toString m.rows.length⟩],
        rows := m.rows ++ [⟨cs ++ [(m.vars.length, -1)], GRB_EQUAL, lower, nm⟩] },
     .ok ())
  else (m, .error nativeIndexError)

/-- add_linear_constraint (lines 550-625): dispatch on which of the two
bounds are given; with both absent the method raises ValueError before
any native call. -/
def add_linear_constraint (m : NativeModel) (coefficients : List (Nat × ℚ))
    (lower_bound upper_bound : Option ℚ) (nm : Option String) :
    NativeModel × Except PyError Unit :=
  match lower_bound, upper_bound with
  | none, none =>
      (m, .error (.valueError
        "at least one of \x27upper_bound\x27 or \x27lower_bound\x27 must be set"))
  | none, some ub => GRBaddconstr m coefficients GRB_LESS_EQUAL ub (nm.getD "")
  | some lb, none => GRBaddconstr m coefficients GRB_GREATER_EQUAL lb (nm.getD "")
  | some lb, some ub =>
      if lb = ub then GRBaddconstr m coefficients GRB_EQUAL lb (nm.getD "")
      else GRBaddrangeconstr m coefficients lb ub (nm.getD "")

/-- row_bounds (lines 679-718): read the Sense and RHS attributes of the
row and rebuild a (lower, upper) pair from them alone. -/
def row_bounds (m : NativeModel) (index : Nat) :
    Except PyError (Option ℚ × Option ℚ) :=
  match m.getRow index with
  | .error e => .error e
  | .ok r =>
      if r.sense = '>' then .ok (some r.rhs, none)
      else if r.sense = '<' then .ok (none, some r.rhs)
      else .ok (some r.rhs, some r.rhs)

/-- col_bounds (lines 720-756): read the LB and UB attributes and replace
the infinity sentinels by None. -/
def col_bounds (m : NativeModel) (index : Nat) :
    Except PyError (Option ℚ × Option ℚ) :=
  match m.getVar index with
  | .error e => .error e
  | .ok v =>
      .ok ((if v.lb ≤ -GRB_INFINITY then none else some v.lb),
           (if GRB_INFINITY ≤ v.ub then none else some v.ub))

/-- The value argument of the variable-bound accessors. Python
distinguishes the three cases by identity: the default sentinel False
(read), the value None (remove the bound), and a number. The float 0.0 is
a number, not the sentinel, since 0.0 is not the object False. -/
inductive BoundArg where
  | unset
  | noBound
  | val (r : ℚ)
deriving DecidableEq

/-- variable_upper_bound (lines 1040-1076): write the UB attribute unless
the value argument is the sentinel False, in which case read it back,
with None for the infinity sentinel. The second component is the Python
return value (None on the write branch). -/
def variable_upper_bound (m : NativeModel) (index : Nat) (value : BoundArg) :
    NativeModel × Except PyError (Option (Option ℚ)) :=
  match value with
  | .unset =>
      match m.getVar index with
      | .ok v => (m, .ok (some (if GRB_INFINITY ≤ v.ub then none else some v.ub)))
      | .error e => (m, .error e)
  | .noBound =>
      match m.updVar index (fun v => { v with ub := GRB_INFINITY }) with
      | .ok m2 => (m2, .ok none)
      | .error e => (m, .error e)
  | .val r =>
      match m.updVar index (fun v => { v with ub := r }) with
      | .ok m2 => (m2, .ok none)
      | .error e => (m, .error e)

/-- variable_lower_bound (lines 1078-1116): mirror image of the upper
bound accessor on the LB attribute. -/
def variable_lower_bound (m : NativeModel) (index : Nat) (value : BoundArg) :
    NativeModel × Except PyError (Option (Option ℚ)) :=
  match value with
  | .unset =>
      match m.getVar index with
      | .ok v => (m, .ok (some (if v.lb ≤ -GRB_INFINITY then none else some v.lb)))
      | .error e => (m, .error e)
  | .noBound =>
      match m.updVar index (fun v => { v with lb := -GRB_INFINITY }) with
      | .ok m2 => (m2, .ok none)
      | .error e => (m, .error e)
  | .val r =>
      match m.updVar index (fun v => { v with lb := r }) with
      | .ok m2 => (m2, .ok none)
      | .error e => (m, .error e)

/-- Models the native GRBaddvar entry point: append one column and write
its coefficients into the referenced rows; an out-of-range row index is a
native error that leaves the model unchanged. -/
def GRBaddvar (m : NativeModel) (cs : List (Nat × ℚ)) (obj lb ub : ℚ)
    (vtype : Char) (nm : String) : NativeModel × Except PyError Unit :=
  if cs.all (fun p => p.1 < m.rows.length) then
    let newIdx := m.vars.length
    let rows2 := cs.foldl (fun rs p =>
      match rs.get? p.1 with
      | some r => rs.set p.1 { r with rowCoeffs := r.rowCoeffs ++ [(newIdx, p.2)] }
      | none => rs) m.rows
    ({ m with vars := m.vars ++ [⟨lb, ub, vtype, obj, nm⟩], rows := rows2 }, .ok ())
  else (m, .error nativeIndexError)

/-- add_variable (lines 104-211). The flag check counts the requested
type flags: zero selected defaults to continuous, more than one raises
ValueError before the native call. The defaults of the Python signature
are lower_bound = 0.0 and upper_bound = None; a None bound becomes the
matching infinity sentinel. The method returns ncols() - 1. -/
def add_variable (m : NativeModel) (lower_bound upper_bound : Option ℚ)
    (binary continuous integer : Bool) (obj : ℚ) (nm : Option String)
    (coefficients : Option (List (Nat × ℚ))) : NativeModel × Except PyError Nat :=
  let vtypeCount : Nat :=
    (if binary then 1 else 0) + (if continuous then 1 else 0) + (if integer then 1 else 0)
  if vtypeCount = 0 ∨ vtypeCount = 1 then
    let continuous2 := if vtypeCount = 0 then true else continuous
    let vtype : Char :=
      if binary then GRB_BINARY else if continuous2 then GRB_CONTINUOUS else GRB_INTEGER
    let vName : String :=
      match nm with
      | some s => s
      | none => "x_" ++ toString m.vars.length
    let ub : ℚ := match upper_bound with | none => GRB_INFINITY | some u => u
    let lb : ℚ := match lower_bound with | none => -GRB_INFINITY | some l => l
    let cs : List (Nat × ℚ) := match coefficients with | none => [] | some l => l
    match GRBaddvar m cs obj lb ub vtype vName with
    | (m2, .ok ()) => (m2, .ok (m2.vars.length - 1))
    | (m2, .error e) => (m2, .error e)
  else
    (m, .error (.valueError
      "Exactly one parameter of \x27binary\x27, \x27integer\x27 and \x27continuous\x27 must be \x27True\x27."))

/-- objective_coefficient (lines 343-376). The branch condition of the
source is the Python truthiness test `if coeff:`, which sends both None
and a zero coefficient to the read branch; only a nonzero number is
written. The second component is the Python return value (the coefficient
on the read branch, None on the write branch). -/
def objective_coefficient (m : NativeModel) (varIdx : Nat) (coeff : Option ℚ) :
    NativeModel × Except PyError (Option ℚ) :=
  match coeff with
  | some c =>
      if c ≠ 0 then
        match m.updVar varIdx (fun v => { v with obj := c }) with
        | .ok m2 => (m2, .ok none)
        | .error e => (m, .error e)
      else
        match m.getVar varIdx with
        | .ok v => (m, .ok (some v.obj))
        | .error e => (m, .error e)
  | none =>
      match m.getVar varIdx with
      | .ok v => (m, .ok (some v.obj))
      | .error e => (m, .error e)

/-- The write loop of set_objective (lines 479-488): write the Obj
attribute of variable i to the ith list element, stopping at the first
native error (which leaves the earlier writes in place). -/
def set_objective_loop : List ℚ → Nat → NativeModel → NativeModel × Except PyError Unit
  | [], _, m => (m, .ok ())
  | c :: rest, i, m =>
      match m.updVar i (fun v => { v with obj := c }) with
      | .ok m2 => set_objective_loop rest (i + 1) m2
      | .error e => (m, .error e)

/-- set_objective (lines 446-490): positional write of every coefficient,
then record the constant term on the adapter. A failed write raises
before the constant term is updated. -/
def set_objective (b : Backend) (coeff : List ℚ) (d : ℚ) :
    Backend × Except PyError Unit :=
  match set_objective_loop coeff 0 b.model with
  | (m2, .ok ()) => ({ model := m2, obj_constant_term := d }, .ok ())
  | (m2, .error e) => ({ b with model := m2 }, .error e)

/-- get_objective_value (lines 795-824): the native ObjVal attribute plus
the stored constant term; reading ObjVal with no solution available is a
native error. -/
def get_objective_value (b : Backend) : Except PyError ℚ :=
  match b.model.objVal with
  | some v => .ok (v + b.obj_constant_term)
  | none =>
      .error (.mipSolverException
        "Gurobi: Unable to retrieve attribute \x27ObjVal\x27 (GRB_ERROR_DATA_NOT_AVAILABLE)")

/-- solve (lines 758-792). The native optimizer is opaque, so its outcome
is an oracle input: the terminal Status it writes and the ObjVal it makes
available (absent when it produced no solution value). The path where the
native calls themselves fail is covered by check; after a completed
GRBoptimize the method inspects the Status attribute, succeeds on exactly
GRB_OPTIMAL, and otherwise raises with the reason from the status table,
falling back to a generic message carrying the raw code. -/
def solve (b : Backend) (status : Int) (objVal : Option ℚ) :
    Backend × Except PyError Unit :=
  let b2 : Backend := { b with model := { b.model with status := status, objVal := objVal } }
  if status ≠ GRB_OPTIMAL then
    (b2, .error (.mipSolverException
      ("Gurobi: " ++ ((mip_status status).getD
        ("unknown error during call to GRBoptimize : " ++ toString status)))))
  else (b2, .ok ())

/-- is_maximization (lines 1022-1038): the ModelSense attribute, -1 for
maximization. -/
def is_maximization (b : Backend) : Bool := b.model.modelSense = -1

/-- The constructor (lines 62-102): a fresh empty model whose ModelSense
matches the maximization flag, and a zero constant term. -/
def backend_init (maximization : Bool) : Backend :=
  { model :=
      { vars := [], rows := [],
        modelSense := if maximization then -1 else 1,
        modelName := "", status := 0, objVal := none },
    obj_constant_term := 0 }

/-- problem_name as a setter (lines 378-444): write the ModelName
attribute. -/
def problem_name_set (m : NativeModel) (nm : String) : NativeModel :=
  { m with modelName := nm }

/-- Models the native GRBcopymodel entry point: clone the model content.
Per the comment at line 1290 of the source, Gurobi appends _copy to the
problem name; and the clone starts without solution information. -/
def GRBcopymodel (m : NativeModel) : NativeModel :=
  { m with modelName := m.modelName ++ "_copy", status := 0, objVal := none }

/-- The __copy__ method (lines 1273-1293): construct a fresh backend with
the same sense, replace its model by a native clone, and restore the
problem name that the clone mangled. The constant term of the fresh
backend is the one its constructor set. -/
def copyBackend (b : Backend) : Backend :=
  let p := backend_init (is_maximization b)
  let p := { p with model := GRBcopymodel b.model }
  { p with model := problem_name_set p.model b.model.modelName }

/-- set_variable_type (lines 274-310): write the VType attribute
character selected by the integer code (1 integer, 0 binary, otherwise
continuous). -/
def set_variable_type (m : NativeModel) (varIdx : Nat) (vtype : Int) :
    NativeModel × Except PyError Unit :=
  let c : Char := if vtype = 1 then 'I' else if vtype = 0 then 'B' else 'C'
  match m.updVar varIdx (fun v => { v with vtype := c }) with
  | .ok m2 => (m2, .ok ())
  | .error e => (m, .error e)

/-- The static parameter table (cdef dict parameters_type, lines
1335-1422): parameter name to value kind. -/
def parameters_type : String → Option String := fun n =>
  match n with
  | "AggFill" => some "int"
  | "Aggregate" => some "int"
  | "BarConvTol" => some "double"
  | "BarCorrectors" => some "int"
  | "BarHomogeneous" => some "int"
  | "BarOrder" => some "int"
  | "BarQCPConvTol" => some "double"
  | "BarIterLimit" => some "int"
  | "BranchDir" => some "int"
  | "CliqueCuts" => some "int"
  | "CoverCuts" => some "int"
  | "Crossover" => some "int"
  | "CrossoverBasis" => some "int"
  | "Cutoff" => some "double"
  | "CutAggPasses" => some "int"
  | "CutPasses" => some "int"
  | "Cuts" => some "int"
  | "DisplayInterval" => some "int"
  | "DualReductions" => some "int"
  | "FeasibilityTol" => some "double"
  | "FeasRelaxBigM" => some "double"
  | "FlowCoverCuts" => some "int"
  | "FlowPathCuts" => some "int"
  | "GomoryPasses" => some "int"
  | "GUBCoverCuts" => some "int"
  | "Heuristics" => some "double"
  | "IISMethod" => some "int"
  | "ImpliedCuts" => some "int"
  | "ImproveStartGap" => some "double"
  | "ImproveStartNodes" => some "double"
  | "ImproveStartTime" => some "double"
  | "InfUnbdInfo" => some "int"
  | "IntegralityFocus" => some "int"
  | "InputFile" => some "string"
  | "IntFeasTol" => some "double"
  | "IterationLimit" => some "double"
  | "LogFile" => some "string"
  | "LogToConsole" => some "int"
  | "MarkowitzTol" => some "double"
  | "Method" => some "int"
  | "MinRelNodes" => some "int"
  | "MIPFocus" => some "int"
  | "MIPGap" => some "double"
  | "MIPGapAbs" => some "double"
  | "MIPSepCuts" => some "int"
  | "MIQCPMethod" => some "int"
  | "MIRCuts" => some "int"
  | "ModKCuts" => some "int"
  | "NetworkCuts" => some "int"
  | "NodefileDir" => some "string"
  | "NodefileStart" => some "double"
  | "NodeLimit" => some "double"
  | "NodeMethod" => some "int"
  | "NormAdjust" => some "int"
  | "ObjScale" => some "double"
  | "OptimalityTol" => some "double"
  | "OutputFlag" => some "int"
  | "PerturbValue" => some "double"
  | "PreCrush" => some "int"
  | "PreDepRow" => some "int"
  | "PreDual" => some "int"
  | "PrePasses" => some "int"
  | "PreQLinearize" => some "int"
  | "Presolve" => some "int"
  | "PreSparsify" => some "int"
  | "PSDTol" => some "double"
  | "PumpPasses" => some "int"
  | "QCPDual" => some "int"
  | "Quad" => some "int"
  | "ResultFile" => some "string"
  | "RINS" => some "int"
  | "ScaleFlag" => some "int"
  | "Seed" => some "int"
  | "Sifting" => some "int"
  | "SiftMethod" => some "int"
  | "SimplexPricing" => some "int"
  | "SolutionLimit" => some "int"
  | "SolutionNumber" => some "int"
  | "SubMIPCuts" => some "int"
  | "SubMIPNodes" => some "int"
  | "Symmetry" => some "int"
  | "Threads" => some "int"
  | "TimeLimit" => some "double"
  | "VarBranch" => some "int"
  | "ZeroHalfCuts" => some "int"
  | "ZeroObjNodes" => some "int"
  | _ => none

/-- The Python str.lower method on the ASCII parameter names in play:
lowercase every character. -/
def pyLower (s : String) : String := ⟨s.data.map Char.toLower⟩

/-- The alias step at the top of solver_parameter (lines 1239-1242): the
exact lowercase spelling timelimit maps to TimeLimit, and any
capitalization of logfile maps to LogFile; every other name passes
through unchanged. -/
def canonical_name (s : String) : String :=
  if s = "timelimit" then "TimeLimit"
  else if pyLower s = "logfile" then "LogFile"
  else s

/-- The native parameter entry point that solver_parameter dispatches to,
by value kind and by get versus set. -/
inductive ParamCall where
  | getIntParam
  | setIntParam
  | getDblParam
  | setDblParam
  | getStrParam
  | setStrParam
deriving DecidableEq

/-- solver_parameter (lines 1188-1271): apply the aliases, look the name
up in the static table (a missing name raises ValueError before any
native call), then dispatch to the native get or set entry point of the
declared kind. The result records the canonical name passed to the
native layer and the entry point chosen. -/
def solver_parameter (nm : String) (value_given : Bool) :
    Except PyError (String × ParamCall) :=
  let n := canonical_name nm
  match parameters_type n with
  | none =>
      .error (.valueError
        "This parameter is not available. Enabling it may not be so hard, though.")
  | some t =>
      if t = "int" then .ok (n, if value_given then .setIntParam else .getIntParam)
      else if t = "double" then .ok (n, if value_given then .setDblParam else .getDblParam)
      else if t = "string" then .ok (n, if value_given then .setStrParam else .getStrParam)
      else .error (.runtimeError "This should not happen.")

/-- is_variable_binary (lines 946-968): the VType attribute is the
binary character. -/
def is_variable_binary (m : NativeModel) (index : Nat) : Except PyError Bool :=
  match m.getVar index with
  | .ok v => .ok (v.vtype = 'B')
  | .error e => .error e

/-- is_variable_integer (lines 971-993). -/
def is_variable_integer (m : NativeModel) (index : Nat) : Except PyError Bool :=
  match m.getVar index with
  | .ok v => .ok (v.vtype = 'I')
  | .error e => .error e

/-- is_variable_continuous (lines 995-1020). -/
def is_variable_continuous (m : NativeModel) (index : Nat) : Except PyError Bool :=
  match m.getVar index with
  | .ok v => .ok (v.vtype = 'C')
  | .error e => .error e

/-- Encode an optional written bound as the argument the bound setters
receive: a number as itself, an absent bound as Python None. -/
def boundArgOfOption : Option ℚ → BoundArg
  | some r => .val r
  | none => .noBound

/-- A concrete adapter state for instantiating the theorems: a fresh
maximization backend to which two default variables were added. -/
def demoModel : NativeModel :=
  (add_variable
    (add_variable (backend_init true).model (some 0) none false false false 0 none none).1
    (some 0) none false false false 0 none none).1

/-
Theorems about the embedded adapter, one per claim of the specification,
with witnesses and counterexamples.
-/

/-- C1 (counterexample). The claim says every nonzero native error code
not in the static table still raises a solver-exception with a generic
unknown-error message. On the code, the message is built with the dict
subscript errors[error], so the nonzero code 10021, which is absent from
the table, makes check fail with a KeyError carrying the raw code: no
MIPSolverException and no generic message is produced. -/
theorem check_unknown_code_counterexample :
    (10021 : Int) ≠ 0 ∧ errors 10021 = none ∧
    check "Out of memory" 10021 = .error (.keyError 10021) := by
  refine ⟨by decide, by decide, by decide⟩

/-- C1 (amended). For every nonzero native error code in the static
table, check raises a MIPSolverException whose message embeds the native
error text and the symbolic code name; for every nonzero code outside the
table, the dict lookup that builds the message fails first, so check
raises a KeyError carrying the raw code instead of a solver-exception. -/
theorem check_error_translation (msg : String) (e : Int) (h : e ≠ 0) :
    (∀ sym, errors e = some sym →
      check msg e = .error (.mipSolverException ("Gurobi: " ++ msg ++ " (" ++ sym ++ ")"))) ∧
    (errors e = none → check msg e = .error (.keyError e)) := by
  constructor
  · intro sym hsym
    simp [check, h, hsym]
  · intro hnone
    simp [check, h, hnone]

/-- C1 (witness): the in-table code 10009 at a concrete message. -/
theorem check_error_translation_witness :
    check "No Gurobi license found" 10009 =
      .error (.mipSolverException
        "Gurobi: No Gurobi license found (GRB_ERROR_NO_LICENSE)") :=
  (check_error_translation "No Gurobi license found" 10009 (by decide)).1
    "GRB_ERROR_NO_LICENSE" (by decide)

/-- C3. After the native optimizer finishes, solve succeeds exactly on
the status GRB_OPTIMAL; each recognized non-optimal status raises a
MIPSolverException with its status-specific reason, and an unrecognized
status raises one with the generic unknown-error message embedding the
raw code. -/
theorem solve_status_translation (b : Backend) (status : Int) (ov : Option ℚ) :
    ((solve b status ov).2 = .ok () ↔ status = GRB_OPTIMAL) ∧
    (status = GRB_INFEASIBLE → (solve b status ov).2 =
      .error (.mipSolverException "Gurobi: The problem is infeasible")) ∧
    (status = GRB_INF_OR_UNBD → (solve b status ov).2 =
      .error (.mipSolverException "Gurobi: The problem is infeasible or unbounded")) ∧
    (status = GRB_UNBOUNDED → (solve b status ov).2 =
      .error (.mipSolverException "Gurobi: The problem is unbounded")) ∧
    (status = GRB_ITERATION_LIMIT → (solve b status ov).2 =
      .error (.mipSolverException "Gurobi: The iteration limit has been reached")) ∧
    (status = GRB_NODE_LIMIT → (solve b status ov).2 =
      .error (.mipSolverException "Gurobi: The node limit has been reached")) ∧
    (status = GRB_TIME_LIMIT → (solve b status ov).2 =
      .error (.mipSolverException "Gurobi: The time limit has been reached")) ∧
    (status = GRB_SOLUTION_LIMIT → (solve b status ov).2 =
      .error (.mipSolverException "Gurobi: The solution limit has been reached")) ∧
    (status ≠ GRB_OPTIMAL → mip_status status = none → (solve b status ov).2 =
      .error (.mipSolverException
        ("Gurobi: " ++ ("unknown error during call to GRBoptimize : " ++ toString status)))) := by
  refine ⟨?_, ?_, ?_, ?_, ?_, ?_, ?_, ?_, ?_⟩
  · constructor
    · intro h
      by_contra hne
      simp [solve, hne] at h
    · intro h
      simp [solve, h, GRB_OPTIMAL]
  all_goals intro h
  · subst h
    simp [solve, mip_status, GRB_INFEASIBLE, GRB_OPTIMAL]
  · subst h
    simp [solve, mip_status, GRB_INF_OR_UNBD, GRB_OPTIMAL, GRB_INFEASIBLE]
  · subst h
    simp [solve, mip_status, GRB_UNBOUNDED, GRB_OPTIMAL, GRB_INFEASIBLE, GRB_INF_OR_UNBD]
  · subst h
    simp [solve, mip_status, GRB_ITERATION_LIMIT, GRB_OPTIMAL, GRB_INFEASIBLE, GRB_INF_OR_UNBD,
      GRB_UNBOUNDED]
  · subst h
    simp [solve, mip_status, GRB_NODE_LIMIT, GRB_OPTIMAL, GRB_INFEASIBLE, GRB_INF_OR_UNBD,
      GRB_UNBOUNDED, GRB_ITERATION_LIMIT]
  · subst h
    simp [solve, mip_status, GRB_TIME_LIMIT, GRB_OPTIMAL, GRB_INFEASIBLE, GRB_INF_OR_UNBD,
      GRB_UNBOUNDED, GRB_ITERATION_LIMIT, GRB_NODE_LIMIT]
  · subst h
    simp [solve, mip_status, GRB_SOLUTION_LIMIT, GRB_OPTIMAL, GRB_INFEASIBLE, GRB_INF_OR_UNBD,
      GRB_UNBOUNDED, GRB_ITERATION_LIMIT, GRB_NODE_LIMIT, GRB_TIME_LIMIT]
  · intro hnone
    simp [solve, h, hnone]

/-- C3 (witness): the infeasible status on a concrete backend. -/
theorem solve_status_translation_witness :
    (solve ⟨demoModel, 0⟩ 3 none).2 =
      .error (.mipSolverException "Gurobi: The problem is infeasible") :=
  (solve_status_translation ⟨demoModel, 0⟩ 3 none).2.1 rfl

/-- C7 (counterexample). The claim says the adapter produced by __copy__
agrees with the source on the constant term that is added into the
reported objective value. The copy is built by the constructor, which
sets the constant term to zero, and __copy__ never copies the field, so
a source with constant term 7 yields a copy with constant term 0. -/
theorem copy_constant_term_counterexample :
    (⟨demoModel, 7⟩ : Backend).obj_constant_term = 7 ∧
    (copyBackend ⟨demoModel, 7⟩).obj_constant_term = 0 ∧
    (7 : ℚ) ≠ 0 := by
  refine ⟨by decide, by decide, by decide⟩

/-- C7 (amended). The copy agrees with the source at the moment of copy
on ncols, nrows, every variable record (bounds, types, objective
coefficients, names), every row, the optimization sense and the model
name; but its objective constant term is the constructor default 0
rather than the source value. Both adapters own distinct native model
states, so in this functional model a mutation of one is invisible to
the other. -/
theorem copy_preserves_model_resets_constant (b : Backend) :
    ncols (copyBackend b).model = ncols b.model ∧
    nrows (copyBackend b).model = nrows b.model ∧
    (copyBackend b).model.vars = b.model.vars ∧
    (copyBackend b).model.rows = b.model.rows ∧
    (copyBackend b).model.modelSense = b.model.modelSense ∧
    (copyBackend b).model.modelName = b.model.modelName ∧
    is_maximization (copyBackend b) = is_maximization b ∧
    (copyBackend b).obj_constant_term = 0 := by
  refine ⟨rfl, rfl, rfl, rfl, rfl, rfl, rfl, rfl⟩

/-- C9. In objective_coefficient, requesting a write of the coefficient
zero is indistinguishable from requesting a read: the Python truthiness
test sends both to the read branch, which performs no write and leaves
the model unchanged. -/
theorem objective_coefficient_zero_is_read (m : NativeModel) (i : Nat) :
    objective_coefficient m i (some 0) = objective_coefficient m i none ∧
    (objective_coefficient m i (some 0)).1 = m := by
  constructor
  · simp [objective_coefficient]
  · simp only [objective_coefficient]
    cases m.getVar i <;> simp

/-- C8. solver_parameter first applies the two aliases, then refuses any
name absent from the static table with a ValueError before any native
call; a recognized name is dispatched to the native get or set entry
point of its declared kind. The timelimit alias fires only on the exact
lowercase spelling, while the logfile alias is case-insensitive. -/
theorem solver_parameter_dispatch (nm : String) (v : Bool) :
    (parameters_type (canonical_name nm) = none →
      solver_parameter nm v = .error (.valueError
        "This parameter is not available. Enabling it may not be so hard, though.")) ∧
    (parameters_type (canonical_name nm) = some "int" →
      solver_parameter nm v =
        .ok (canonical_name nm, if v then .setIntParam else .getIntParam)) ∧
    (parameters_type (canonical_name nm) = some "double" →
      solver_parameter nm v =
        .ok (canonical_name nm, if v then .setDblParam else .getDblParam)) ∧
    (parameters_type (canonical_name nm) = some "string" →
      solver_parameter nm v =
        .ok (canonical_name nm, if v then .setStrParam else .getStrParam)) ∧
    canonical_name "timelimit" = "TimeLimit" ∧
    (pyLower nm = "timelimit" → nm ≠ "timelimit" → canonical_name nm = nm) ∧
    (pyLower nm = "logfile" → canonical_name nm = "LogFile") := by
  refine ⟨?_, ?_, ?_, ?_, by decide, ?_, ?_⟩
  · intro h
    simp [solver_parameter, h]
  · intro h
    simp [solver_parameter, h]
  · intro h
    simp [solver_parameter, h]
  · intro h
    simp [solver_parameter, h]
  · intro h hne
    simp [canonical_name, hne, h]
  · intro h
    by_cases hnm : nm = "timelimit"
    · subst hnm
      exact absurd h (by decide)
    · simp [canonical_name, hnm, h]

/-- C8 (witness): a case-mangled logfile alias dispatching to the string
setter, and an unknown name refused. -/
theorem solver_parameter_dispatch_witness :
    solver_parameter "logFILE" true = .ok ("LogFile", .setStrParam) ∧
    solver_parameter "Chaos" false = .error (.valueError
      "This parameter is not available. Enabling it may not be so hard, though.") :=
  ⟨(solver_parameter_dispatch "logFILE" true).2.2.2.1 (by decide),
   (solver_parameter_dispatch "Chaos" false).1 (by decide)⟩

/-- C4. A call to add_variable requesting more than one of the flags
binary, continuous, integer fails with the ValueError of the flag check,
leaving the model untouched (so ncols is unchanged and no variable is
created); a call requesting none of the three creates a variable whose
VType attribute is the continuous character. -/
theorem add_variable_flags (m : NativeModel) (lb ub : Option ℚ) (obj : ℚ)
    (nm : Option String) :
    (∀ b c i : Bool,
      2 ≤ ((if b then 1 else 0) + (if c then 1 else 0) + (if i then 1 else 0) : Nat) →
      add_variable m lb ub b c i obj nm none =
        (m, .error (.valueError
          "Exactly one parameter of \x27binary\x27, \x27integer\x27 and \x27continuous\x27 must be \x27True\x27."))) ∧
    ((add_variable m lb ub false false false obj nm none).2 = .ok (ncols m) ∧
     ncols (add_variable m lb ub false false false obj nm none).1 = ncols m + 1 ∧
     is_variable_continuous (add_variable m lb ub false false false obj nm none).1 (ncols m) =
       .ok true) := by
  constructor
  · intro b c i h
    cases b <;> cases c <;> cases i <;>
      simp_all [add_variable]
  · refine ⟨?_, ?_, ?_⟩
    · simp [add_variable, GRBaddvar, ncols]
    · simp [add_variable, GRBaddvar, ncols]
    · simp [add_variable, GRBaddvar, ncols, is_variable_continuous, NativeModel.getVar,
        List.getElem?_concat_length, GRB_CONTINUOUS]

/-- C4 (witness): requesting binary and integer together on the concrete
state is refused. -/
theorem add_variable_flags_witness :
    add_variable demoModel (some 0) none true false true 0 none none =
      (demoModel, .error (.valueError
        "Exactly one parameter of \x27binary\x27, \x27integer\x27 and \x27continuous\x27 must be \x27True\x27.")) :=
  (add_variable_flags demoModel (some 0) none 0 none).1 true false true (by decide)

/-- C5. add_linear_constraint dispatches to exactly one of four row
forms: only an upper bound gives a less-equal row with that bound as
RHS, only a lower bound a greater-equal row, equal bounds an equality
row, and distinct finite bounds with lower < upper a native range
constraint (stored, per the native layer, as an equality row over an
extra slack column); with both bounds absent the call raises ValueError
before any native call and leaves the model unchanged. -/
theorem add_linear_constraint_dispatch (m : NativeModel) (cs : List (Nat × ℚ))
    (nm : Option String) (hcs : (cs.all fun p => p.1 < m.vars.length) = true) :
    (add_linear_constraint m cs none none nm =
      (m, .error (.valueError
        "at least one of \x27upper_bound\x27 or \x27lower_bound\x27 must be set"))) ∧
    (∀ u, add_linear_constraint m cs none (some u) nm =
      ({ m with rows := m.rows ++ [⟨cs, GRB_LESS_EQUAL, u, nm.getD ""⟩] }, .ok ())) ∧
    (∀ l, add_linear_constraint m cs (some l) none nm =
      ({ m with rows := m.rows ++ [⟨cs, GRB_GREATER_EQUAL, l, nm.getD ""⟩] }, .ok ())) ∧
    (∀ l u, l = u → add_linear_constraint m cs (some l) (some u) nm =
      ({ m with rows := m.rows ++ [⟨cs, GRB_EQUAL, l, nm.getD ""⟩] }, .ok ())) ∧
    (∀ l u : ℚ, l < u → add_linear_constraint m cs (some l) (some u) nm =
      ({ m with
          vars := m.vars ++ [⟨0, u - l, GRB_CONTINUOUS, 0, "RgR" ++ toString m.rows.length⟩],
          rows := m.rows ++ [⟨cs ++ [(m.vars.length, -1)], GRB_EQUAL, l, nm.getD ""⟩] },
        .ok ())) := by
  refine ⟨?_, ?_, ?_, ?_, ?_⟩
  · simp [add_linear_constraint]
  · intro u
    simp [add_linear_constraint, GRBaddconstr, hcs]
  · intro l
    simp [add_linear_constraint, GRBaddconstr, hcs]
  · intro l u h
    subst h
    simp [add_linear_constraint, GRBaddconstr, hcs]
  · intro l u hlt
    have hne : l ≠ u := ne_of_lt hlt
    simp [add_linear_constraint, GRBaddrangeconstr, hcs, hne]

/-- C5 (witness): a pure upper-bound row on the concrete two-variable
state. -/
theorem add_linear_constraint_dispatch_witness :
    add_linear_constraint demoModel [(0, 1), (1, 1)] none (some 3) none =
      ({ demoModel with
          rows := demoModel.rows ++ [⟨[(0, 1), (1, 1)], GRB_LESS_EQUAL, 3, ""⟩] },
       .ok ()) :=
  (add_linear_constraint_dispatch demoModel [(0, 1), (1, 1)] none (by decide)).2.1 3

/-- C10. The variable-bound accessors distinguish a read request from a
write by identity with the sentinel False, not by truthiness: any
argument other than the sentinel, including the number 0.0 and the value
None, takes the write branch (whose Python return value is None), the
sentinel alone takes the read branch and leaves the state unchanged,
writing 0.0 makes a subsequent read return 0.0, and writing None stores
the infinity sentinel so that a subsequent read returns None. -/
theorem variable_bounds_sentinel (m : NativeModel) (i : Nat) (h : i < ncols m) :
    (∀ v, v ≠ BoundArg.unset → (variable_upper_bound m i v).2 = .ok none) ∧
    (∀ v, v ≠ BoundArg.unset → (variable_lower_bound m i v).2 = .ok none) ∧
    (variable_upper_bound m i .unset).1 = m ∧
    (variable_lower_bound m i .unset).1 = m ∧
    (variable_upper_bound (variable_upper_bound m i (.val 0)).1 i .unset).2 =
      .ok (some (some 0)) ∧
    (variable_lower_bound (variable_lower_bound m i (.val 0)).1 i .unset).2 =
      .ok (some (some 0)) ∧
    (variable_upper_bound (variable_upper_bound m i .noBound).1 i .unset).2 =
      .ok (some none) ∧
    (variable_lower_bound (variable_lower_bound m i .noBound).1 i .unset).2 =
      .ok (some none) := by
  have hlen : i < m.vars.length := h
  obtain ⟨w, hw⟩ : ∃ w, m.vars[i]? = some w := ⟨_, List.getElem?_eq_getElem hlen⟩
  have hub0 : ¬ (GRB_INFINITY ≤ (0 : ℚ)) := by norm_num [GRB_INFINITY]
  have hlb0 : ¬ ((0 : ℚ) ≤ -GRB_INFINITY) := by norm_num [GRB_INFINITY]
  have hset : ∀ x : NativeVar, (m.vars.set i x)[i]? = some x := fun x =>
    List.getElem?_set_eq_of_lt x hlen
  refine ⟨?_, ?_, ?_, ?_, ?_, ?_, ?_, ?_⟩
  · intro v hv
    cases v with
    | unset => exact absurd rfl hv
    | noBound => simp [variable_upper_bound, NativeModel.updVar, hw]
    | val r => simp [variable_upper_bound, NativeModel.updVar, hw]
  · intro v hv
    cases v with
    | unset => exact absurd rfl hv
    | noBound => simp [variable_lower_bound, NativeModel.updVar, hw]
    | val r => simp [variable_lower_bound, NativeModel.updVar, hw]
  · simp [variable_upper_bound, NativeModel.getVar, hw]
  · simp [variable_lower_bound, NativeModel.getVar, hw]
  · simp [variable_upper_bound, NativeModel.updVar, NativeModel.getVar, hw, hset, hub0]
  · simp [variable_lower_bound, NativeModel.updVar, NativeModel.getVar, hw, hset, hlb0]
  · simp [variable_upper_bound, NativeModel.updVar, NativeModel.getVar, hw, hset]
  · simp [variable_lower_bound, NativeModel.updVar, NativeModel.getVar, hw, hset]

/-- C10 (witness): writing the number 0.0 as upper bound of the first
concrete variable is a write, and reading it back returns 0.0. -/
theorem variable_bounds_sentinel_witness :
    (variable_upper_bound (variable_upper_bound demoModel 0 (.val 0)).1 0 .unset).2 =
      .ok (some (some 0)) :=
  (variable_bounds_sentinel demoModel 0 (by decide)).2.2.2.2.1

/-- Helper for the bound round-trip: writing an optional lower and an
optional upper bound through the variable-bound setters stores the value
or the matching infinity sentinel, and col_bounds reads back exactly the
written pair provided any written numbers lie strictly inside the
sentinels. -/
theorem col_bounds_write_read (m : NativeModel) (i : Nat) (hlen : i < m.vars.length)
    (lo uo : Option ℚ)
    (hlo : ∀ l, lo = some l → -GRB_INFINITY < l)
    (huo : ∀ u, uo = some u → u < GRB_INFINITY) :
    col_bounds
      (variable_upper_bound (variable_lower_bound m i (boundArgOfOption lo)).1 i
        (boundArgOfOption uo)).1 i = .ok (lo, uo) := by
  obtain ⟨w, hw⟩ : ∃ w, m.vars[i]? = some w := ⟨_, List.getElem?_eq_getElem hlen⟩
  have hinf : ¬ (GRB_INFINITY ≤ -GRB_INFINITY) := by norm_num [GRB_INFINITY]
  cases lo with
  | none =>
      cases uo with
      | none =>
          simp [boundArgOfOption, variable_lower_bound, variable_upper_bound,
            NativeModel.updVar, col_bounds, NativeModel.getVar, hw,
            List.getElem?_set_eq_of_lt, List.length_set, hlen]
      | some u =>
          have hu : ¬ (GRB_INFINITY ≤ u) := not_le.mpr (huo u rfl)
          simp [boundArgOfOption, variable_lower_bound, variable_upper_bound,
            NativeModel.updVar, col_bounds, NativeModel.getVar, hw,
            List.getElem?_set_eq_of_lt, List.length_set, hlen, hu]
  | some l =>
      have hl : ¬ (l ≤ -GRB_INFINITY) := not_le.mpr (hlo l rfl)
      cases uo with
      | none =>
          simp [boundArgOfOption, variable_lower_bound, variable_upper_bound,
            NativeModel.updVar, col_bounds, NativeModel.getVar, hw,
            List.getElem?_set_eq_of_lt, List.length_set, hlen, hl]
      | some u =>
          have hu : ¬ (GRB_INFINITY ≤ u) := not_le.mpr (huo u rfl)
          simp [boundArgOfOption, variable_lower_bound, variable_upper_bound,
            NativeModel.updVar, col_bounds, NativeModel.getVar, hw,
            List.getElem?_set_eq_of_lt, List.length_set, hlen, hl, hu]

/-- C2 (counterexample). The claim says the written pair is returned
exactly also for two-sided range rows with lowerBound < upperBound. On
the code this cannot happen: row_bounds rebuilds the pair from the
single Sense and RHS attributes, and a range row is stored as an
equality row whose RHS is the lower bound, so after writing the range
(1, 2) the read returns (1, 1), not (1, 2). -/
theorem range_row_bounds_counterexample :
    (add_linear_constraint demoModel [(0, 1), (1, 1)] (some 1) (some 2) none).2 = .ok () ∧
    (1 : ℚ) < 2 ∧
    row_bounds (add_linear_constraint demoModel [(0, 1), (1, 1)] (some 1) (some 2) none).1
      (nrows demoModel) = .ok (some 1, some 1) ∧
    ((some (1 : ℚ), some (1 : ℚ)) : Option ℚ × Option ℚ) ≠ (some 1, some 2) := by
  refine ⟨by decide, by decide, by decide, by decide⟩

/-- C2 (amended). For every written bound pair, the subsequent read
returns exactly the written pair with None for the infinity sentinels,
for all forms except two-sided range rows: a one-sided or equality row
written by add_linear_constraint is read back verbatim by row_bounds on
the new row index, and variable bounds written through the setters are
read back verbatim by col_bounds; a range row with lower < upper is
instead read back as the collapsed pair (lower, lower). -/
theorem bounds_roundtrip (m : NativeModel) (cs : List (Nat × ℚ)) (nm : Option String)
    (hcs : (cs.all fun p => p.1 < m.vars.length) = true) :
    (∀ u, row_bounds (add_linear_constraint m cs none (some u) nm).1 (nrows m) =
      .ok (none, some u)) ∧
    (∀ l, row_bounds (add_linear_constraint m cs (some l) none nm).1 (nrows m) =
      .ok (some l, none)) ∧
    (∀ l u, l = u → row_bounds (add_linear_constraint m cs (some l) (some u) nm).1 (nrows m) =
      .ok (some l, some u)) ∧
    (∀ l u : ℚ, l < u →
      row_bounds (add_linear_constraint m cs (some l) (some u) nm).1 (nrows m) =
        .ok (some l, some l)) ∧
    (∀ (i : Nat) (lo uo : Option ℚ), i < ncols m →
      (∀ l, lo = some l → -GRB_INFINITY < l) →
      (∀ u, uo = some u → u < GRB_INFINITY) →
      col_bounds
        (variable_upper_bound (variable_lower_bound m i (boundArgOfOption lo)).1 i
          (boundArgOfOption uo)).1 i = .ok (lo, uo)) := by
  refine ⟨?_, ?_, ?_, ?_, ?_⟩
  · intro u
    simp [add_linear_constraint, GRBaddconstr, hcs, nrows, row_bounds, NativeModel.getRow,
      List.getElem?_concat_length, GRB_LESS_EQUAL]
  · intro l
    simp [add_linear_constraint, GRBaddconstr, hcs, nrows, row_bounds, NativeModel.getRow,
      List.getElem?_concat_length, GRB_GREATER_EQUAL]
  · intro l u h
    subst h
    simp [add_linear_constraint, GRBaddconstr, hcs, nrows, row_bounds, NativeModel.getRow,
      List.getElem?_concat_length, GRB_EQUAL]
  · intro l u hlt
    have hne : l ≠ u := ne_of_lt hlt
    simp [add_linear_constraint, GRBaddrangeconstr, hcs, hne, nrows, row_bounds,
      NativeModel.getRow, List.getElem?_concat_length, GRB_EQUAL]
  · intro i lo uo hi hlo huo
    exact col_bounds_write_read m i hi lo uo hlo huo

/-- C2 (witness): an equality row and a finite bound pair on the
concrete state. -/
theorem bounds_roundtrip_witness :
    row_bounds (add_linear_constraint demoModel [(0, 1), (1, 1)] (some 2) (some 2) none).1
      (nrows demoModel) = .ok (some 2, some 2) ∧
    col_bounds
      (variable_upper_bound (variable_lower_bound demoModel 0 (boundArgOfOption (some 1))).1 0
        (boundArgOfOption (some 5))).1 0 = .ok (some 1, some 5) := by
  constructor
  · exact (bounds_roundtrip demoModel [(0, 1), (1, 1)] none (by decide)).2.2.1 2 2 rfl
  · exact (bounds_roundtrip demoModel [(0, 1), (1, 1)] none (by decide)).2.2.2.2 0
      (some 1) (some 5) (by decide)
      (by intro l hl; cases hl; norm_num [GRB_INFINITY])
      (by intro u hu; cases hu; norm_num [GRB_INFINITY])

/-- Helper for the objective round-trip: when every position the write
loop touches exists, the loop succeeds, preserves the list length and
the entries below the start index, and stores each list element as the
Obj attribute of its positional variable. -/
theorem set_objective_loop_ok (cs : List ℚ) : ∀ (i : Nat) (m : NativeModel),
    i + cs.length ≤ m.vars.length →
    ∃ m2, set_objective_loop cs i m = (m2, .ok ()) ∧
      m2.vars.length = m.vars.length ∧
      (∀ j, j < i → m2.vars[j]? = m.vars[j]?) ∧
      (∀ k c, cs[k]? = some c →
        ∃ v, m.vars[i + k]? = some v ∧ m2.vars[i + k]? = some { v with obj := c }) := by
  induction cs with
  | nil =>
      intro i m _
      refine ⟨m, rfl, rfl, fun j _ => rfl, fun k c hk => ?_⟩
      simp at hk
  | cons c rest ih =>
      intro i m h
      have hlen : i < m.vars.length := by
        simp at h
        omega
      obtain ⟨w, hw⟩ : ∃ w, m.vars[i]? = some w := ⟨_, List.getElem?_eq_getElem hlen⟩
      have hstep : set_objective_loop (c :: rest) i m =
          set_objective_loop rest (i + 1) { m with vars := m.vars.set i { w with obj := c } } := by
        simp [set_objective_loop, NativeModel.updVar, hw]
      have h1 : (i + 1) + rest.length ≤
          ({ m with vars := m.vars.set i { w with obj := c } } : NativeModel).vars.length := by
        simp [List.length_set]
        simp at h
        omega
      obtain ⟨m2, hloop, hlen2, hpres, hwr⟩ := ih (i + 1)
        { m with vars := m.vars.set i { w with obj := c } } h1
      refine ⟨m2, by rw [hstep, hloop], by simpa [List.length_set] using hlen2, ?_, ?_⟩
      · intro j hj
        have hj1 : j < i + 1 := by omega
        have hne : i ≠ j := by omega
        calc m2.vars[j]? = (m.vars.set i { w with obj := c })[j]? := hpres j hj1
          _ = m.vars[j]? := List.getElem?_set_ne hne
      · intro k c' hk
        cases k with
        | zero =>
            have hc : c = c' := by
              simpa using hk
            subst hc
            refine ⟨w, by simpa using hw, ?_⟩
            have hpi : m2.vars[i]? = (m.vars.set i { w with obj := c })[i]? :=
              hpres i (by omega)
            simp only [Nat.add_zero]
            rw [hpi]
            exact List.getElem?_set_eq_of_lt _ hlen
        | succ k' =>
            have hk' : rest[k']? = some c' := by
              simpa using hk
            obtain ⟨v, hv1, hv2⟩ := hwr k' c' hk'
            have hne : i ≠ i + 1 + k' := by omega
            have hidx : i + (k' + 1) = i + 1 + k' := by omega
            have hskip : (m.vars.set i ({ w with obj := c }))[i + 1 + k']? =
                m.vars[i + 1 + k']? := List.getElem?_set_ne hne
            refine ⟨v, ?_, ?_⟩
            · rw [hidx, ← hskip]
              exact hv1
            · rw [hidx]
              exact hv2

/-- C6. After set_objective writes a coefficient list covering all of
the variables together with a constant term, reading each coefficient
back through objective_coefficient returns the written value, and after
a subsequent successful solve the reported objective value is the native
objective value plus the recorded constant. -/
theorem set_objective_roundtrip (b : Backend) (coeff : List ℚ) (d : ℚ)
    (h : coeff.length = ncols b.model) :
    (set_objective b coeff d).2 = .ok () ∧
    (set_objective b coeff d).1.obj_constant_term = d ∧
    (∀ k c, coeff[k]? = some c →
      (objective_coefficient (set_objective b coeff d).1.model k none).2 = .ok (some c)) ∧
    (∀ v : ℚ, get_objective_value (solve (set_objective b coeff d).1 GRB_OPTIMAL (some v)).1 =
      .ok (v + d)) := by
  have hle : 0 + coeff.length ≤ b.model.vars.length := by
    simp [h, ncols]
  obtain ⟨m2, hloop, _, _, hwr⟩ := set_objective_loop_ok coeff 0 b.model hle
  refine ⟨?_, ?_, ?_, ?_⟩
  · simp [set_objective, hloop]
  · simp [set_objective, hloop]
  · intro k c hk
    obtain ⟨v, _, hv2⟩ := hwr k c hk
    simp only [Nat.zero_add] at hv2
    simp [set_objective, hloop, objective_coefficient, NativeModel.getVar, hv2]
  · intro v
    simp [set_objective, hloop, solve, get_objective_value, GRB_OPTIMAL]

/-- C6 (witness): the two-variable state with coefficients [2, 5] and
constant 7; the second coefficient reads back as 5, and with native
objective value 3 the reported value is 10. -/
theorem set_objective_roundtrip_witness :
    (objective_coefficient (set_objective ⟨demoModel, 0⟩ [2, 5] 7).1.model 1 none).2 =
      .ok (some 5) ∧
    get_objective_value
      (solve (set_objective ⟨demoModel, 0⟩ [2, 5] 7).1 GRB_OPTIMAL (some 3)).1 = .ok 10 := by
  have h := set_objective_roundtrip ⟨demoModel, 0⟩ [2, 5] 7 (by decide)
  constructor
  · exact h.2.2.1 1 5 (by decide)
  · rw [h.2.2.2 3]
    norm_num

end Gurobi
